import Mathlib

/-!
Shallow embedding of the haproxy-ingress-otel module (Rust sources:
src/exporter.rs, src/cache.rs, src/span.rs, src/filter.rs), together with
theorems settling the specification claims about it.

Strings are modelled by Lean `String`; Rust string operations that are not
structurally recursive in Lean core (`split`, `split_once`, `starts_with`,
`to_lowercase`, `trim_end_matches`) are re-implemented here over `List Char`
so that every definition evaluates inside the kernel.  Machine integers
(HTTP status codes, `i64`) are modelled by `Int`.  Fallible host accessors
(`LuaResult`) are modelled by `Except String`.
-/

namespace HaproxyOtel

/-- Model of Rust `str::to_lowercase` restricted to ASCII (all strings the
module ever matches case-insensitively are ASCII, where the two agree). -/
def toLowerStr (s : String) : String :=
  String.mk (s.data.map Char.toLower)

/-- Model of Rust `str::starts_with` (byte-wise for ASCII patterns). -/
def strStartsWith (s pre : String) : Bool :=
  pre.data.isPrefixOf s.data

/-- Split a character list on every occurrence of `sep`; an empty input
yields one empty piece, exactly like Rust `str::split`. -/
def splitListAux (sep : Char) : List Char → List (List Char)
  | [] => [[]]
  | c :: cs =>
    let r := splitListAux sep cs
    if c == sep then [] :: r
    else
      match r with
      | [] => [[c]]
      | h :: t => (c :: h) :: t

/-- Model of Rust `str::split(sep)` collected into a list. -/
def splitChar (sep : Char) (s : String) : List String :=
  (splitListAux sep s.data).map String.mk

/-- Split a character list at the first occurrence of `sep`. -/
def splitOnceList (sep : Char) : List Char → Option (List Char × List Char)
  | [] => none
  | c :: cs =>
    if c == sep then some ([], cs)
    else
      match splitOnceList sep cs with
      | none => none
      | some (a, b) => some (c :: a, b)

/-- Model of Rust `str::split_once(sep)`. -/
def split_once (s : String) (sep : Char) : Option (String × String) :=
  (splitOnceList sep s.data).map fun p => (String.mk p.1, String.mk p.2)

/-- Model of `uri.splitn(2, '?')` as used for URL path/query splitting:
first component is the path, second the query (empty when there is no `?`). -/
def splitPathQ (uri : String) : String × String :=
  match split_once uri '?' with
  | some (p, q) => (p, q)
  | none => (uri, "")

/-- Model of Rust `str::parse::<bool>`: accepts exactly the literals
"true" and "false". -/
def parseRustBool (s : String) : Option Bool :=
  if s == "true" then some true
  else if s == "false" then some false
  else none

/-- Model of Rust `str::eq_ignore_ascii_case`. -/
def eqIgnoreAsciiCase (a b : String) : Bool :=
  a.data.map Char.toLower == b.data.map Char.toLower

/-- Model of Rust `str::trim_end_matches('/')`: removes every trailing
slash. -/
def trimEndSlashes (s : String) : String :=
  String.mk ((s.data.reverse.dropWhile fun c => c == '/').reverse)

/-- Lowercase hexadecimal digit for a value below 16. -/
def hexDigitChar (n : Nat) : Char :=
  if n < 10 then Char.ofNat (48 + n) else Char.ofNat (87 + n)

/-- Model of `const_hex::encode` over a byte list (lowercase hex). -/
def hexEncode (bytes : List Nat) : String :=
  String.mk (bytes.foldr
    (fun b acc => hexDigitChar (b / 16 % 16) :: hexDigitChar (b % 16) :: acc) [])

/-! ## exporter.rs: configuration resolver -/

/-- Log levels per OTEL spec (src/exporter.rs `LogLevel`). -/
inductive LogLevel
  | Off
  | Error
  | Warn
  | Info
  | Debug
  deriving DecidableEq

/-- `LogLevel::from_str` (src/exporter.rs): case-insensitive names plus the
synonyms none/fatal/warning/trace. -/
def LogLevel.fromStr (s : String) : Option LogLevel :=
  match toLowerStr s with
  | "off" => some LogLevel.Off
  | "none" => some LogLevel.Off
  | "error" => some LogLevel.Error
  | "fatal" => some LogLevel.Error
  | "warn" => some LogLevel.Warn
  | "warning" => some LogLevel.Warn
  | "info" => some LogLevel.Info
  | "debug" => some LogLevel.Debug
  | "trace" => some LogLevel.Debug
  | _ => none

/-- Provenance of a resolved configuration value (src/exporter.rs
`ConfigSource`). -/
inductive ConfigSource
  | LuaConfig
  | EnvTracesSpecific
  | EnvGeneral
  | Default
  deriving DecidableEq

/-- Supported OTLP protocols (src/exporter.rs `Protocol`). -/
inductive Protocol
  | Grpc
  | HttpProtobuf
  | HttpJson
  deriving DecidableEq

/-- `Protocol::from_str` (src/exporter.rs): case-insensitive OTEL spec
values plus the legacy synonyms binary/json. -/
def Protocol.fromStr (s : String) : Option Protocol :=
  match toLowerStr s with
  | "grpc" => some Protocol.Grpc
  | "http/protobuf" => some Protocol.HttpProtobuf
  | "http/json" => some Protocol.HttpJson
  | "binary" => some Protocol.HttpProtobuf
  | "json" => some Protocol.HttpJson
  | _ => none

def DEFAULT_HTTP_ENDPOINT : String := "http://localhost:4318"
def DEFAULT_GRPC_ENDPOINT : String := "http://localhost:4317"
def TRACES_PATH : String := "v1/traces"

/-- `Protocol::default_endpoint` (src/exporter.rs). -/
def Protocol.default_endpoint : Protocol → String
  | Protocol.Grpc => DEFAULT_GRPC_ENDPOINT
  | Protocol.HttpProtobuf => DEFAULT_HTTP_ENDPOINT
  | Protocol.HttpJson => DEFAULT_HTTP_ENDPOINT

/-- `build_traces_endpoint` (src/exporter.rs): gRPC endpoints are used
as-is; HTTP endpoints get trailing slashes trimmed and `/v1/traces`
appended. -/
def build_traces_endpoint (base : String) (protocol : Protocol) : String :=
  match protocol with
  | Protocol.Grpc => base
  | Protocol.HttpProtobuf => trimEndSlashes base ++ "/" ++ TRACES_PATH
  | Protocol.HttpJson => trimEndSlashes base ++ "/" ++ TRACES_PATH

/-- Module options parsed from the Lua configuration table
(src/exporter.rs `Options`). -/
structure Options where
  service_name : String
  sampler : Option String
  propagator : Option String
  endpoint : Option String
  protocol : Option String
  deriving DecidableEq

/-- The process environment, as read by `std::env::var` (absent or
non-unicode variables yield `none`). -/
def Env : Type := String → Option String

/-- `resolve_log_level` (src/exporter.rs).  The third component records
whether the unrecognized-value warning was printed. -/
def resolve_log_level (env : Env) : LogLevel × ConfigSource × Bool :=
  match env "OTEL_LOG_LEVEL" with
  | some level =>
    match LogLevel.fromStr level with
    | some l => (l, ConfigSource.EnvGeneral, false)
    | none => (LogLevel.Info, ConfigSource.Default, true)
  | none => (LogLevel.Info, ConfigSource.Default, false)

/-- Steps 2-4 of `resolve_endpoint` (src/exporter.rs): the env-var checks
and the protocol-dependent default, after the Lua option was skipped. -/
def resolve_endpoint_env (env : Env) (protocol : Protocol) : String × ConfigSource :=
  match env "OTEL_EXPORTER_OTLP_TRACES_ENDPOINT" with
  | some ep =>
    if !ep.isEmpty then (ep, ConfigSource.EnvTracesSpecific)
    else
      match env "OTEL_EXPORTER_OTLP_ENDPOINT" with
      | some ep2 =>
        if !ep2.isEmpty then (ep2, ConfigSource.EnvGeneral)
        else (protocol.default_endpoint, ConfigSource.Default)
      | none => (protocol.default_endpoint, ConfigSource.Default)
  | none =>
    match env "OTEL_EXPORTER_OTLP_ENDPOINT" with
    | some ep2 =>
      if !ep2.isEmpty then (ep2, ConfigSource.EnvGeneral)
      else (protocol.default_endpoint, ConfigSource.Default)
    | none => (protocol.default_endpoint, ConfigSource.Default)

/-- `resolve_endpoint` (src/exporter.rs): Lua option, then the
traces-specific env var, then the general env var, then the protocol
default; empty strings are skipped. -/
def resolve_endpoint (o : Options) (env : Env) (protocol : Protocol) :
    String × ConfigSource :=
  match o.endpoint with
  | some ep =>
    if !ep.isEmpty then (ep, ConfigSource.LuaConfig)
    else resolve_endpoint_env env protocol
  | none => resolve_endpoint_env env protocol

/-- Steps 2-4 of `resolve_protocol` (src/exporter.rs). -/
def resolve_protocol_env (env : Env) : Protocol × ConfigSource :=
  match (env "OTEL_EXPORTER_OTLP_TRACES_PROTOCOL").bind Protocol.fromStr with
  | some p => (p, ConfigSource.EnvTracesSpecific)
  | none =>
    match (env "OTEL_EXPORTER_OTLP_PROTOCOL").bind Protocol.fromStr with
    | some p => (p, ConfigSource.EnvGeneral)
    | none => (Protocol.HttpProtobuf, ConfigSource.Default)

/-- `resolve_protocol` (src/exporter.rs): Lua option, then traces-specific
env var, then general env var, then the default `http/protobuf`;
unrecognized strings are skipped. -/
def resolve_protocol (o : Options) (env : Env) : Protocol × ConfigSource :=
  match o.protocol.bind Protocol.fromStr with
  | some p => (p, ConfigSource.LuaConfig)
  | none => resolve_protocol_env env

/-- The traces endpoint actually handed to the exporter builder by `init`
(src/exporter.rs lines 256-264): `build_traces_endpoint` is applied to the
resolved endpoint unconditionally, whatever its provenance. -/
def init_traces_endpoint (o : Options) (env : Env) : String × ConfigSource :=
  let protocol := (resolve_protocol o env).1
  let ep := resolve_endpoint o env protocol
  (build_traces_endpoint ep.1 protocol, ep.2)

/-! ## Spec-side resolution rule (for the refinement claim C2)

The spec states resolution as a first-match rule over an ordered candidate
list: stop at the first source yielding a recognized, non-empty value. -/

/-- The spec's ordered candidate list for endpoint resolution. -/
def endpointCandidates (o : Options) (env : Env) :
    List (Option String × ConfigSource) :=
  [(o.endpoint, ConfigSource.LuaConfig),
   (env "OTEL_EXPORTER_OTLP_TRACES_ENDPOINT", ConfigSource.EnvTracesSpecific),
   (env "OTEL_EXPORTER_OTLP_ENDPOINT", ConfigSource.EnvGeneral)]

/-- First candidate whose value is present and non-empty, else the default
(tagged `Default`); per the spec an empty string counts as absent. -/
def specFirstEndpoint (dflt : String) :
    List (Option String × ConfigSource) → String × ConfigSource
  | [] => (dflt, ConfigSource.Default)
  | (some v, src) :: rest =>
    if !v.isEmpty then (v, src) else specFirstEndpoint dflt rest
  | (none, _) :: rest => specFirstEndpoint dflt rest

/-- The spec's ordered candidate list for protocol resolution. -/
def protocolCandidates (o : Options) (env : Env) :
    List (Option String × ConfigSource) :=
  [(o.protocol, ConfigSource.LuaConfig),
   (env "OTEL_EXPORTER_OTLP_TRACES_PROTOCOL", ConfigSource.EnvTracesSpecific),
   (env "OTEL_EXPORTER_OTLP_PROTOCOL", ConfigSource.EnvGeneral)]

/-- First candidate whose value is present and recognized by
`Protocol.fromStr`, else the default protocol (tagged `Default`); an empty
or unrecognized string counts as absent. -/
def specFirstProtocol :
    List (Option String × ConfigSource) → Protocol × ConfigSource
  | [] => (Protocol.HttpProtobuf, ConfigSource.Default)
  | (some v, src) :: rest =>
    (match Protocol.fromStr v with
     | some p => (p, src)
     | none => specFirstProtocol rest)
  | (none, _) :: rest => specFirstProtocol rest

/-- The allow-list exactly as claim C4 words it: traceparent, tracestate,
b3, names starting with the B3 multi-header prefix, and names starting
with "uber" (and nothing else). -/
def claimAllowedName (name : String) : Bool :=
  name == "traceparent" || name == "tracestate" || name == "b3" ||
  strStartsWith name "x-b3" || strStartsWith name "uber"

/-! ## Span and context data model (SpanRecord of the spec, backing the
opentelemetry span handles used by src/span.rs and src/filter.rs) -/

/-- Span attribute values used by the module: strings and `i64`. -/
inductive AttrValue
  | str (s : String)
  | int (i : Int)
  deriving DecidableEq

/-- Terminal status of a span. -/
inductive SpanStatus
  | Unset
  | Ok
  | Error (description : String)
  deriving DecidableEq

/-- Span kinds used by the module. -/
inductive SpanKind
  | Server
  | Client
  deriving DecidableEq

/-- A span as observable through the operations the module performs on it. -/
structure SpanRecord where
  name : String
  kind : SpanKind
  attributes : List (String × AttrValue)
  events : List String
  status : SpanStatus
  ended : Bool
  deriving DecidableEq

/-- An opentelemetry `Context`: the currently active span (the ancestor
chain is irrelevant to the claims and is not modelled). -/
structure Context where
  span : SpanRecord
  deriving DecidableEq

/-- The span held by an empty/default `Context` (a non-recording no-op
span). -/
def emptySpan : SpanRecord :=
  { name := "", kind := SpanKind.Client, attributes := [], events := [],
    status := SpanStatus.Unset, ended := false }

def emptyContext : Context := { span := emptySpan }

/-! ## cache.rs: the correlation cache

The concurrent map (`quick_cache::sync::Cache`) is an external dependency;
it is modelled by an association list honoring its get/insert/remove
interface (one entry per key, insert overwrites).  Capacity-driven LRU
eviction never fires in any claim (single-key scenarios) and is not
modelled. -/

/-- `Cache::get`. -/
def cacheGet (cache : List (String × Context)) (k : String) : Option Context :=
  (cache.find? fun e => e.1 == k).map (fun e => e.2)

/-- `Cache::insert` (overwrites any previous entry for the key). -/
def cacheInsert (cache : List (String × Context)) (k : String) (v : Context) :
    List (String × Context) :=
  (k, v) :: cache.filter fun e => e.1 != k

/-- The map part of `Cache::remove`. -/
def cacheRemoveEntry (cache : List (String × Context)) (k : String) :
    List (String × Context) :=
  cache.filter fun e => e.1 != k

/-- Per-transaction scratch variables used by the module: the
`txn.otel_trace_id` string, the `txn.__otel_server_span` boolean flag, and
arbitrary named string variables read by `set_span_attribute`. -/
structure TxnVars where
  otel_trace_id : Option String
  owns_server_span : Bool
  scratch : List (String × String)
  deriving DecidableEq

/-- Combined state touched by the cache wrappers: the process-wide trace
cache and the current transaction's scratch variables. -/
structure SysState where
  cache : List (String × Context)
  txn : TxnVars
  deriving DecidableEq

/-- `get_context` (src/cache.rs): look the context up under the trace-id
scratch variable; `none` when the variable or the entry is absent. -/
def get_context (s : SysState) : Option Context :=
  match s.txn.otel_trace_id with
  | none => none
  | some tid => cacheGet s.cache tid

/-- `store_context` (src/cache.rs): hex-encode the trace id, write it into
the scratch variable, and insert the context under it. -/
def store_context (s : SysState) (trace_id : List Nat) (context : Context) :
    SysState :=
  let tid := hexEncode trace_id
  { s with
    txn := { s.txn with otel_trace_id := some tid },
    cache := cacheInsert s.cache tid context }

/-- `remove_context` (src/cache.rs): destructively take the entry under
the trace-id scratch variable. -/
def remove_context (s : SysState) : Option Context × SysState :=
  match s.txn.otel_trace_id with
  | none => (none, s)
  | some tid =>
    (cacheGet s.cache tid, { s with cache := cacheRemoveEntry s.cache tid })

/-! ## span.rs and filter.rs: the span lifecycle engine -/

/-- `is_tracing_header`: the header-name test inlined in
`tracing_headers2map` (src/span.rs lines 114-118), byte-exact. -/
def is_tracing_header (name : String) : Bool :=
  name == "host" ||
  (name == "traceparent" || name == "tracestate") ||
  (name == "b3" || strStartsWith name "x-b3") ||
  strStartsWith name "uber"

/-- `HashMap::insert` over an association-list map (last write wins). -/
def mapInsert (m : List (String × String)) (k v : String) :
    List (String × String) :=
  (k, v) :: m.filter fun e => e.1 != k

/-- `tracing_headers2map` (src/span.rs): filter the incoming request
headers down to the names passing `is_tracing_header` and collect them
into a map; the input pairs each header name with its first value. -/
def tracing_headers2map (headers : List (String × String)) :
    List (String × String) :=
  headers.foldl
    (fun m h => if is_tracing_header h.1 then mapInsert m h.1 h.2 else m) []

/-- Filter instance state (src/filter.rs `TraceFilter`). -/
structure TraceFilter where
  start_client_span : Option Bool
  context : Context
  deriving DecidableEq

/-- `TraceFilter::default()`. -/
def defaultTraceFilter : TraceFilter :=
  { start_client_span := none, context := emptyContext }

/-- Transaction fetcher samples (`txn.f.get_str` / `txn.f.get`): `none`
models a failing accessor for the string fetchers; `txn_status` and
`txn_sess_term_state` are `Option`-typed samples whose fetch itself is
total. -/
structure TxnF where
  method : Option String := none
  pathq : Option String := none
  src : Option String := none
  srv_name : Option String := none
  fe_name : Option String := none
  be_name : Option String := none
  txn_status : Option Int := none
  txn_sess_term_state : Option String := none
  deriving DecidableEq

/-- The upstream response status line (`msg.get_stline()`): the `code`
field is read with `unwrap_or_default`, the `reason` field fallibly. -/
structure StatusLine where
  code : Option Int := none
  reason : Option String := none
  deriving DecidableEq

/-- Lift a possibly-failing host accessor into the `LuaResult` monad. -/
def fetchF {α : Type} : Option α → Except String α
  | some a => Except.ok a
  | none => Except.error "lua accessor error"

/-- Whether a `LuaResult` is a success. -/
def isOkE {α : Type} : Except String α → Bool
  | Except.ok _ => true
  | Except.error _ => false

/-- Extract a success value with a fallback. -/
def getOkE {α : Type} (d : α) : Except String α → α
  | Except.ok a => a
  | Except.error _ => d

/-- The `silent_on` flag computed in `on_request_headers`
(src/filter.rs lines 55-58): sampler option equal to exactly "SilentOn". -/
def silentOn (opts : Options) : Bool :=
  opts.sampler == some "SilentOn"

/-- `HeaderInjector::set` (src/filter.rs lines 179-184): returns whether
the header is written onto the outgoing request. -/
def headerInjectorSet (silent_on : Bool) (key : String) : Bool :=
  !(silent_on && eqIgnoreAsciiCase key "x-b3-sampled")

/-- The headers actually written by the propagator through the injector. -/
def injectHeaders (silent_on : Bool) (hs : List (String × String)) :
    List (String × String) :=
  hs.filter fun h => headerInjectorSet silent_on h.1

/-- `TraceFilter::on_request_headers` (src/filter.rs lines 20-64): client
span creation plus propagation-header injection.  `propHeaders` is the
configured propagator's emission for a context.  Returns the new filter
state and the headers written onto the outgoing request; `Except.ok`
corresponds to `Ok(FilterResult::Continue)`. -/
def on_request_headers (opts : Options) (f : TraceFilter) (s : SysState)
    (txf : TxnF) (propHeaders : Context → List (String × String)) :
    Except String (TraceFilter × List (String × String)) :=
  match get_context s with
  | none => Except.ok (f, [])
  | some parent_context =>
    if f.start_client_span == some false then Except.ok (f, [])
    else
      match txf.method with
      | none => Except.error "lua accessor error"
      | some method =>
        match txf.pathq with
        | none => Except.error "lua accessor error"
        | some uri =>
          let parts := splitPathQ uri
          let span : SpanRecord :=
            { name := "upstream", kind := SpanKind.Client,
              attributes :=
                [("http.request.method", AttrValue.str method),
                 ("url.path", AttrValue.str parts.1),
                 ("url.query", AttrValue.str parts.2)],
              events := [], status := SpanStatus.Unset, ended := false }
          let context : Context := { parent_context with span := span }
          let written := injectHeaders (silentOn opts) (propHeaders context)
          Except.ok ({ f with context := context }, written)

/-- `TraceFilter::on_response_headers` (src/filter.rs lines 67-94): client
span completion on upstream response headers. -/
def on_response_headers (f : TraceFilter) (stline : Option StatusLine)
    (srv_name : Option String) : Except String TraceFilter :=
  if f.start_client_span == some false then Except.ok f
  else
    let sp0 := f.context.span
    let sp0 := { sp0 with events := sp0.events ++ ["received response headers"] }
    match stline with
    | none => Except.error "lua accessor error"
    | some stl =>
      let status := stl.code.getD 0
      let sp1 :=
        { sp0 with attributes :=
            sp0.attributes ++ [("http.response.status_code", AttrValue.int status)] }
      if status < 500 then
        let sp2 := { sp1 with status := SpanStatus.Ok }
        match srv_name with
        | none => Except.error "lua accessor error"
        | some srv =>
          let sp3 :=
            { sp2 with attributes :=
                sp2.attributes ++ [("haproxy.server.name", AttrValue.str srv)] }
          Except.ok { f with context := { f.context with span := sp3 } }
      else
        match stl.reason with
        | none => Except.error "lua accessor error"
        | some reason =>
          let sp2 := { sp1 with status := SpanStatus.Error reason }
          match srv_name with
          | none => Except.error "lua accessor error"
          | some srv =>
            let sp3 :=
              { sp2 with attributes :=
                  sp2.attributes ++ [("haproxy.server.name", AttrValue.str srv)] }
            Except.ok { f with context := { f.context with span := sp3 } }

/-- `set_span_attribute` (src/span.rs lines 54-64): read a named scratch
variable and set it as an attribute on the cached context's active span;
silently no-op when the variable or the context is absent.  The shared
span mutation is modelled by updating the cached entry in place. -/
def set_span_attribute (s : SysState) (name var_name : String) :
    Except String SysState :=
  match s.txn.scratch.find? (fun e => e.1 == var_name) with
  | none => Except.ok s
  | some kv =>
    match s.txn.otel_trace_id with
    | none => Except.ok s
    | some tid =>
      match cacheGet s.cache tid with
      | none => Except.ok s
      | some context =>
        let sp := context.span
        let sp :=
          { sp with attributes := sp.attributes ++ [(name, AttrValue.str kv.2)] }
        Except.ok
          { s with cache := cacheInsert s.cache tid { context with span := sp } }

/-- `end_server_span` (src/span.rs lines 68-107): server span completion.
Returns the new state and the finished span handed to the export
pipeline, if any. -/
def end_server_span (s : SysState) (txf : TxnF) :
    Except String (SysState × Option SpanRecord) :=
  if !s.txn.owns_server_span then Except.ok (s, none)
  else
    match remove_context s with
    | (none, s1) => Except.ok (s1, none)
    | (some context, s1) =>
      let status := txf.txn_status.getD 0
      let sp := context.span
      let sp :=
        { sp with attributes :=
            sp.attributes ++ [("http.response.status_code", AttrValue.int status)] }
      let sp :=
        if status < 500 then { sp with status := SpanStatus.Ok }
        else { sp with status := SpanStatus.Error "5xx status code" }
      match txf.fe_name with
      | none => Except.error "lua accessor error"
      | some fe =>
        let sp :=
          { sp with attributes :=
              sp.attributes ++ [("haproxy.frontend.name", AttrValue.str fe)] }
        match txf.be_name with
        | none => Except.error "lua accessor error"
        | some be =>
          let sp :=
            { sp with attributes :=
                sp.attributes ++ [("haproxy.backend.name", AttrValue.str be)] }
          let sp :=
            match txf.txn_sess_term_state with
            | some t =>
              { sp with attributes :=
                  sp.attributes ++ [("haproxy.termination_state", AttrValue.str t)] }
            | none => sp
          Except.ok (s1, some { sp with ended := true })

/-- `TraceFilter::new` (src/filter.rs lines 100-111): parse the
semicolon-separated filter argument string; only the
`start_client_span=<bool>` option is recognized, with unparseable values
defaulting to `true`. -/
def traceFilterStep (f : TraceFilter) (arg : String) : TraceFilter :=
  let p := (split_once arg '=').getD ("", "")
  if p.1 == "start_client_span" then
    { f with start_client_span := some ((parseRustBool p.2).getD true) }
  else f

def traceFilterNew (args : Option String) : TraceFilter :=
  match args with
  | none => defaultTraceFilter
  | some a => (splitChar ';' a).foldl traceFilterStep defaultTraceFilter

/-! ## Concrete fixtures used by counterexamples and witnesses -/

/-- Options with every optional setting absent (Lua table `{}`). -/
def optsEmpty : Options :=
  { service_name := "haproxy", sampler := none, propagator := none,
    endpoint := none, protocol := none }

/-- Options with sampler = "SilentOn". -/
def optsSilent : Options := { optsEmpty with sampler := some "SilentOn" }

/-- Environment with only the signal-specific traces endpoint set. -/
def envTracesOnly : Env := fun k =>
  if k == "OTEL_EXPORTER_OTLP_TRACES_ENDPOINT" then some "http://x:1/custom"
  else none

/-- Environment with an unrecognized OTEL_LOG_LEVEL. -/
def envBadLogLevel : Env := fun k =>
  if k == "OTEL_LOG_LEVEL" then some "invalid_value" else none

/-- A server-span context as stored by `start_server_span`. -/
def ctxServer : Context :=
  { span := { name := "GET example.com", kind := SpanKind.Server,
              attributes := [], events := [], status := SpanStatus.Unset,
              ended := false } }

/-- State of a request owning a server span under trace id "ab". -/
def stateServer : SysState :=
  { cache := [("ab", ctxServer)],
    txn := { otel_trace_id := some "ab", owns_server_span := true,
             scratch := [] } }

/-- State of a request in the NoTrace state. -/
def stateNoTrace : SysState :=
  { cache := [], txn := { otel_trace_id := none, owns_server_span := false,
                          scratch := [("v", "x")] } }

/-- Transaction fetches at server-span completion. -/
def txfServer : TxnF :=
  { fe_name := some "http-in", be_name := some "b1",
    txn_status := some 503, txn_sess_term_state := some "----" }

/-- Upstream status line with a 5xx code. -/
def stl503 : StatusLine := { code := some 503, reason := some "oops" }

/-! ## Helper lemmas -/

/-- Looking a key up right after removing it yields nothing. -/
theorem cacheGet_removeEntry (cache : List (String × Context)) (k : String) :
    cacheGet (cacheRemoveEntry cache k) k = none := by
  simp only [cacheGet, cacheRemoveEntry, Option.map_eq_none', List.find?_eq_none]
  intro e he
  have h2 := (List.mem_filter.mp he).2
  simp only [bne_iff_ne, ne_eq] at h2
  simp [h2]

/-- Every entry of the header map built by the fold comes from the
accumulator or from an input header whose name passes the filter. -/
theorem mem_tracing_fold (l : List (String × String)) :
    ∀ (m : List (String × String)) (e : String × String),
      e ∈ l.foldl
        (fun m h => if is_tracing_header h.1 then mapInsert m h.1 h.2 else m) m →
      e ∈ m ∨ (e ∈ l ∧ is_tracing_header e.1 = true) := by
  induction l with
  | nil => exact fun m e he => Or.inl he
  | cons a l ih =>
    intro m e he
    rw [List.foldl_cons] at he
    rcases ih _ e he with hm | hl
    · by_cases hp : is_tracing_header a.1
      · rw [if_pos hp] at hm
        rcases List.mem_cons.mp hm with heq | hm2
        · refine Or.inr ⟨?_, ?_⟩
          · rw [heq]
            exact List.mem_cons_self _ _
          · rw [heq]
            exact hp
        · exact Or.inl (List.mem_filter.mp hm2).1
      · rw [if_neg hp] at hm
        exact Or.inl hm
    · exact Or.inr ⟨List.mem_cons_of_mem _ hl.1, hl.2⟩

/-! ## Claim theorems -/

/-- Claim C1 (code bug): the final traces endpoint handed to the exporter
by `init` does NOT equal the signal-specific override byte-for-byte for
the HTTP protocols.  Although `resolve_endpoint` selects the
`OTEL_EXPORTER_OTLP_TRACES_ENDPOINT` override (tagged as such, and
documented in the source as "used as-is, no /v1/traces appended"), `init`
then applies `build_traces_endpoint` unconditionally, appending the
`/v1/traces` suffix under the default protocol `http/protobuf`. -/
theorem C1_signal_specific_endpoint_gets_suffix :
    resolve_endpoint optsEmpty envTracesOnly Protocol.HttpProtobuf =
      ("http://x:1/custom", ConfigSource.EnvTracesSpecific) ∧
    resolve_protocol optsEmpty envTracesOnly =
      (Protocol.HttpProtobuf, ConfigSource.Default) ∧
    init_traces_endpoint optsEmpty envTracesOnly =
      ("http://x:1/custom/v1/traces", ConfigSource.EnvTracesSpecific) ∧
    "http://x:1/custom/v1/traces" ≠ "http://x:1/custom" := by
  refine ⟨by decide, by decide, by decide, by decide⟩

/-- Claim C3: storing a context under a trace identifier and then reading
it back returns it; removing returns it too, after which both a read and
a second removal return nothing (removal is destructive and idempotent). -/
theorem C3_cache_round_trip (s : SysState) (trace_id : List Nat)
    (context : Context) :
    get_context (store_context s trace_id context) = some context ∧
    (remove_context (store_context s trace_id context)).1 = some context ∧
    get_context (remove_context (store_context s trace_id context)).2 = none ∧
    (remove_context (remove_context (store_context s trace_id context)).2).1 =
      none := by
  refine ⟨?_, ?_, ?_, ?_⟩
  · simp [get_context, store_context, cacheGet, cacheInsert]
  · simp [remove_context, store_context, cacheGet, cacheInsert]
  · simp only [remove_context, store_context, get_context]
    exact cacheGet_removeEntry _ _
  · simp only [remove_context, store_context, get_context]
    rw [cacheGet_removeEntry]

/-- Claim C4 counterexample: the `host` request header, which is not in
the claim's allow-list, is nevertheless put into the map handed to the
propagator. -/
theorem C4_host_header_counterexample :
    ("host", "example.com") ∈ tracing_headers2map [("host", "example.com")] ∧
    claimAllowedName "host" = false := by
  refine ⟨by decide, by decide⟩

/-- Claim C4 (amended): every entry of the header map handed to the
propagator comes from the incoming request headers and its name is either
in the claim's allow-list (traceparent, tracestate, b3, x-b3 names, uber
names) or is the literal header name "host", which the code additionally
captures (for the span name) and includes in the same map. -/
theorem C4_amended_allowlist (headers : List (String × String))
    (nm v : String) (h : (nm, v) ∈ tracing_headers2map headers) :
    is_tracing_header nm = true ∧
    (claimAllowedName nm = true ∨ nm = "host") ∧
    (nm, v) ∈ headers := by
  rcases mem_tracing_fold headers [] (nm, v) h with hm | hl
  · exact absurd hm (List.not_mem_nil _)
  · refine ⟨hl.2, ?_, hl.1⟩
    have h2 := hl.2
    simp only [is_tracing_header, Bool.or_eq_true, beq_iff_eq] at h2
    rcases h2 with ((hh | htp) | hb3) | hub
    · exact Or.inr hh
    · refine Or.inl ?_
      simp only [claimAllowedName, Bool.or_eq_true, beq_iff_eq]
      tauto
    · refine Or.inl ?_
      simp only [claimAllowedName, Bool.or_eq_true, beq_iff_eq]
      tauto
    · refine Or.inl ?_
      simp only [claimAllowedName, Bool.or_eq_true, beq_iff_eq]
      tauto

/-- Witness for the amended claim C4 at a concrete B3 header. -/
theorem C4_amended_witness :
    ("x-b3-traceid", "t") ∈ tracing_headers2map [("x-b3-traceid", "t")] ∧
    (is_tracing_header "x-b3-traceid" = true ∧
     (claimAllowedName "x-b3-traceid" = true ∨ "x-b3-traceid" = "host") ∧
     ("x-b3-traceid", "t") ∈ [("x-b3-traceid", "t")]) :=
  ⟨by decide, C4_amended_allowlist [("x-b3-traceid", "t")] "x-b3-traceid" "t"
    (by decide)⟩

/-- Claim C5: with the "SilentOn" sampler, exactly the case-insensitive
"x-b3-sampled" header is suppressed by the injector; every other header
the propagator emits is written, and with any other sampler nothing is
suppressed. -/
theorem C5_silent_on_suppression :
    (∀ (opts : Options) (key : String),
      headerInjectorSet (silentOn opts) key = false ↔
        (opts.sampler = some "SilentOn" ∧
         eqIgnoreAsciiCase key "x-b3-sampled" = true)) ∧
    (∀ (opts : Options) (hs : List (String × String)),
      opts.sampler ≠ some "SilentOn" → injectHeaders (silentOn opts) hs = hs) ∧
    (∀ (silent_on : Bool) (hs : List (String × String)) (h : String × String),
      h ∈ injectHeaders silent_on hs ↔
        h ∈ hs ∧ headerInjectorSet silent_on h.1 = true) := by
  refine ⟨?_, ?_, ?_⟩
  · intro opts key
    simp [headerInjectorSet, silentOn]
  · intro opts hs hne
    have hfalse : silentOn opts = false := by
      simp only [silentOn, beq_eq_false_iff_ne, ne_eq]
      exact hne
    simp [injectHeaders, headerInjectorSet, hfalse]
  · intro silent_on hs h
    simp [injectHeaders, List.mem_filter]

/-- Claim C2: endpoint and protocol resolution follow the spec's
first-match rule over the ordered candidate list Lua config, then the
traces-specific env override, then the general env override, then the
hard default; empty (and, for protocol, unrecognized) values are skipped
and the provenance tag names the source actually used. -/
theorem C2_resolution_precedence (o : Options) (env : Env) (p : Protocol) :
    resolve_endpoint o env p =
      specFirstEndpoint p.default_endpoint (endpointCandidates o env) ∧
    resolve_protocol o env = specFirstProtocol (protocolCandidates o env) := by
  constructor
  · cases h1 : o.endpoint <;>
      cases h2 : env "OTEL_EXPORTER_OTLP_TRACES_ENDPOINT" <;>
      cases h3 : env "OTEL_EXPORTER_OTLP_ENDPOINT" <;>
      simp only [resolve_endpoint, resolve_endpoint_env, endpointCandidates,
        specFirstEndpoint, h1, h2, h3] <;>
      first
        | rfl
        | (split <;> simp_all [specFirstEndpoint])
  · cases h1 : o.protocol <;>
      cases h2 : env "OTEL_EXPORTER_OTLP_TRACES_PROTOCOL" <;>
      cases h3 : env "OTEL_EXPORTER_OTLP_PROTOCOL" <;>
      simp only [resolve_protocol, resolve_protocol_env, protocolCandidates,
        specFirstProtocol, h1, h2, h3, Option.bind_none, Option.bind_some] <;>
      repeat' (split <;> simp_all [specFirstProtocol])

/-- Claim C6: at client-span completion the response status code
attribute is set and the status becomes ok for codes below 500 and error
with the upstream reason phrase otherwise; at server-span completion the
same attribute is set and the status becomes ok below 500 and error with
the fixed reason "5xx status code" otherwise. -/
theorem C6_status_assignment
    (f : TraceFilter) (stl : StatusLine) (code : Int) (reason srv : String)
    (s : SysState) (txf : TxnF) (tid : String) (context : Context)
    (fe be : String)
    (hskip : f.start_client_span ≠ some false)
    (hcode : stl.code = some code) (hreason : stl.reason = some reason)
    (howns : s.txn.owns_server_span = true)
    (htid : s.txn.otel_trace_id = some tid)
    (hctx : cacheGet s.cache tid = some context)
    (hfe : txf.fe_name = some fe) (hbe : txf.be_name = some be) :
    (isOkE (on_response_headers f (some stl) (some srv)) = true ∧
     ("http.response.status_code", AttrValue.int code) ∈
       (getOkE f (on_response_headers f (some stl) (some srv))).context.span.attributes ∧
     (getOkE f (on_response_headers f (some stl) (some srv))).context.span.status =
       (if code < 500 then SpanStatus.Ok else SpanStatus.Error reason)) ∧
    (isOkE (end_server_span s txf) = true ∧
     ((getOkE (s, none) (end_server_span s txf)).2).isSome = true ∧
     ("http.response.status_code", AttrValue.int (txf.txn_status.getD 0)) ∈
       (((getOkE (s, none) (end_server_span s txf)).2).getD emptySpan).attributes ∧
     (((getOkE (s, none) (end_server_span s txf)).2).getD emptySpan).status =
       (if txf.txn_status.getD 0 < 500 then SpanStatus.Ok
        else SpanStatus.Error "5xx status code") ∧
     (((getOkE (s, none) (end_server_span s txf)).2).getD emptySpan).ended =
       true) := by
  have hsk : (f.start_client_span == some false) = false := by
    simp only [beq_eq_false_iff_ne, ne_eq]
    exact hskip
  constructor
  · by_cases hlt : code < 500 <;>
      simp [on_response_headers, hsk, hcode, hreason, hlt, isOkE, getOkE]
  · have hrm : remove_context s =
        (some context, { s with cache := cacheRemoveEntry s.cache tid }) := by
      simp [remove_context, htid, hctx]
    by_cases hlt : txf.txn_status.getD 0 < 500 <;>
      cases hterm : txf.txn_sess_term_state <;>
      simp [end_server_span, howns, hrm, hfe, hbe, hterm, hlt, isOkE, getOkE]

/-- Witness for claim C6 at a concrete 503 completion. -/
theorem C6_status_witness :
    (defaultTraceFilter.start_client_span ≠ some false ∧
     stateServer.txn.owns_server_span = true) ∧
    ((isOkE (on_response_headers defaultTraceFilter (some stl503) (some "s1")) =
        true ∧
      ("http.response.status_code", AttrValue.int 503) ∈
        (getOkE defaultTraceFilter
          (on_response_headers defaultTraceFilter (some stl503)
            (some "s1"))).context.span.attributes ∧
      (getOkE defaultTraceFilter
        (on_response_headers defaultTraceFilter (some stl503)
          (some "s1"))).context.span.status =
        (if (503 : Int) < 500 then SpanStatus.Ok
         else SpanStatus.Error "oops")) ∧
     (isOkE (end_server_span stateServer txfServer) = true ∧
      ((getOkE (stateServer, none)
          (end_server_span stateServer txfServer)).2).isSome = true ∧
      ("http.response.status_code",
        AttrValue.int (txfServer.txn_status.getD 0)) ∈
        (((getOkE (stateServer, none)
            (end_server_span stateServer txfServer)).2).getD
          emptySpan).attributes ∧
      (((getOkE (stateServer, none)
          (end_server_span stateServer txfServer)).2).getD emptySpan).status =
        (if txfServer.txn_status.getD 0 < 500 then SpanStatus.Ok
         else SpanStatus.Error "5xx status code") ∧
      (((getOkE (stateServer, none)
          (end_server_span stateServer txfServer)).2).getD emptySpan).ended =
        true)) :=
  ⟨⟨by decide, by decide⟩,
   C6_status_assignment defaultTraceFilter stl503 503 "oops" "s1" stateServer
     txfServer "ab" ctxServer "http-in" "b1" (by decide) (by decide)
     (by decide) (by decide) (by decide) (by decide) (by decide) (by decide)⟩

/-- Claim C8: for a request in the NoTrace state (no trace-identifier
scratch variable, hence no cache entry under it), client-span creation,
arbitrary attribute setting and server-span completion are all no-ops:
no span is created or finished, no header is injected, the cache and the
transaction scratch state are unchanged, and each operation returns
success. -/
theorem C8_notrace_noops (s : SysState) (f : TraceFilter) (opts : Options)
    (txf : TxnF) (propHeaders : Context → List (String × String))
    (name var_name : String)
    (h : s.txn.otel_trace_id = none) :
    on_request_headers opts f s txf propHeaders = Except.ok (f, []) ∧
    set_span_attribute s name var_name = Except.ok s ∧
    end_server_span s txf = Except.ok (s, none) := by
  refine ⟨?_, ?_, ?_⟩
  · simp [on_request_headers, get_context, h]
  · cases hf : s.txn.scratch.find? (fun e => e.1 == var_name) <;>
      simp [set_span_attribute, hf, h]
  · cases howns : s.txn.owns_server_span <;>
      simp [end_server_span, remove_context, howns, h]

/-- Witness for claim C8 at a concrete NoTrace state. -/
theorem C8_notrace_witness :
    stateNoTrace.txn.otel_trace_id = none ∧
    (on_request_headers optsEmpty defaultTraceFilter stateNoTrace {}
        (fun _ => [("traceparent", "00-t-s-01")]) =
      Except.ok (defaultTraceFilter, []) ∧
     set_span_attribute stateNoTrace "attr" "v" = Except.ok stateNoTrace ∧
     end_server_span stateNoTrace {} = Except.ok (stateNoTrace, none)) :=
  ⟨rfl, C8_notrace_noops stateNoTrace defaultTraceFilter optsEmpty {}
    (fun _ => [("traceparent", "00-t-s-01")]) "attr" "v" rfl⟩

/-- Claim C7: building the traces endpoint leaves a gRPC base unchanged,
and for the HTTP protocols splits the base into a part with no trailing
slash plus its trailing slashes, dropping the slashes and appending the
fixed "/v1/traces" suffix. -/
theorem C7_traces_endpoint_suffixing (base : String) :
    build_traces_endpoint base Protocol.Grpc = base ∧
    ∃ t slashes : List Char,
      base.data = t ++ slashes ∧
      (∀ c ∈ slashes, c = '/') ∧
      t.getLast? ≠ some '/' ∧
      (build_traces_endpoint base Protocol.HttpProtobuf).data =
        t ++ ('/' :: TRACES_PATH.data) ∧
      (build_traces_endpoint base Protocol.HttpJson).data =
        t ++ ('/' :: TRACES_PATH.data) := by
  refine ⟨rfl, (trimEndSlashes base).data,
    (base.data.reverse.takeWhile fun c => c == '/').reverse, ?_, ?_, ?_, ?_, ?_⟩
  · rw [trimEndSlashes]
    show base.data =
      (base.data.reverse.dropWhile fun c => c == '/').reverse ++
      (base.data.reverse.takeWhile fun c => c == '/').reverse
    rw [← List.reverse_append, List.takeWhile_append_dropWhile,
      List.reverse_reverse]
  · intro c hc
    have h1 := List.mem_takeWhile_imp (List.mem_reverse.mp hc)
    exact eq_of_beq h1
  · rw [trimEndSlashes]
    show ((base.data.reverse.dropWhile fun c => c == '/').reverse).getLast? ≠
      some '/'
    rw [List.getLast?_reverse]
    intro hcontra
    have h1 := List.head?_dropWhile_not (fun c => c == '/') base.data.reverse
    rw [hcontra] at h1
    simp at h1
  · simp [build_traces_endpoint, TRACES_PATH, String.data_append]
  · simp [build_traces_endpoint, TRACES_PATH, String.data_append]

/-- ASCII lowercasing is idempotent. -/
theorem charToLower_idem (c : Char) : c.toLower.toLower = c.toLower := by
  by_cases h : c.toNat ≥ 65 ∧ c.toNat ≤ 90
  · have h1 : c.toLower = Char.ofNat (c.toNat + 32) := by
      simp only [Char.toLower]
      exact if_pos h
    rw [h1]
    obtain ⟨h2, h3⟩ := h
    generalize c.toNat = n at h2 h3
    interval_cases n <;> decide
  · have h1 : c.toLower = c := by
      simp only [Char.toLower]
      exact if_neg h
    rw [h1, h1]

/-- ASCII string lowercasing is idempotent. -/
theorem toLowerStr_idem (s : String) :
    toLowerStr (toLowerStr s) = toLowerStr s := by
  simp only [toLowerStr]
  rw [List.map_map]
  congr 1
  exact List.map_congr_left fun c _ => charToLower_idem c

/-- Claim C9: log-verbosity parsing is case-insensitive, maps the
synonyms warning/trace/none/fatal onto warn/debug/off/error, and an
unrecognized OTEL_LOG_LEVEL value resolves to the default level info
with provenance default plus a warning, never an error. -/
theorem C9_log_level_parsing :
    (∀ s : String, LogLevel.fromStr s = LogLevel.fromStr (toLowerStr s)) ∧
    (LogLevel.fromStr "warning" = some LogLevel.Warn ∧
     LogLevel.fromStr "WARNING" = some LogLevel.Warn ∧
     LogLevel.fromStr "trace" = some LogLevel.Debug ∧
     LogLevel.fromStr "TRACE" = some LogLevel.Debug ∧
     LogLevel.fromStr "none" = some LogLevel.Off ∧
     LogLevel.fromStr "NoNe" = some LogLevel.Off ∧
     LogLevel.fromStr "fatal" = some LogLevel.Error ∧
     LogLevel.fromStr "Fatal" = some LogLevel.Error) ∧
    (∀ (env : Env) (v : String), env "OTEL_LOG_LEVEL" = some v →
      LogLevel.fromStr v = none →
      resolve_log_level env = (LogLevel.Info, ConfigSource.Default, true)) ∧
    resolve_log_level envBadLogLevel =
      (LogLevel.Info, ConfigSource.Default, true) := by
  refine ⟨?_, by decide, ?_, by decide⟩
  · intro s
    simp only [LogLevel.fromStr, toLowerStr_idem]
  · intro env v h1 h2
    simp [resolve_log_level, h1, h2]

/-- Only an argument pair named exactly "start_client_span" whose value
parses as the boolean literal false can leave the folded filter state
disabled. -/
theorem traceFilterFold_disabled (l : List String) :
    ∀ f : TraceFilter,
      (l.foldl traceFilterStep f).start_client_span = some false →
      f.start_client_span = some false ∨
      ∃ arg, arg ∈ l ∧ ∃ v,
        split_once arg '=' = some ("start_client_span", v) ∧
        parseRustBool v = some false := by
  induction l with
  | nil => exact fun f h => Or.inl h
  | cons a l ih =>
    intro f h
    rw [List.foldl_cons] at h
    rcases ih _ h with h1 | h2
    · cases hs : split_once a '=' with
      | none =>
        rw [traceFilterStep, hs] at h1
        simp only [Option.getD_none] at h1
        rw [if_neg (by decide)] at h1
        exact Or.inl h1
      | some q =>
        by_cases hq : q.1 = "start_client_span"
        · rw [traceFilterStep, hs] at h1
          simp only [Option.getD_some] at h1
          rw [if_pos (by simp [hq])] at h1
          simp only [Option.some_inj] at h1
          cases hv : parseRustBool q.2 with
          | none =>
            rw [hv, Option.getD_none] at h1
            exact absurd h1 (by decide)
          | some b =>
            rw [hv, Option.getD_some] at h1
            subst h1
            refine Or.inr ⟨a, List.mem_cons_self _ _, q.2, ?_, ?_⟩
            · rw [hs, hq.symm]
            · rw [hv]
        · rw [traceFilterStep, hs] at h1
          simp only [Option.getD_some] at h1
          rw [if_neg (by simpa using hq)] at h1
          exact Or.inl h1
    · obtain ⟨arg, harg, hv⟩ := h2
      exact Or.inr ⟨arg, List.mem_cons_of_mem _ harg, hv⟩

/-- Claim C10: client-span creation is disabled only when the
semicolon-separated filter argument string contains a pair named exactly
"start_client_span" whose value parses as the boolean literal false;
values that fail to parse as a boolean ("no", "0", "False") leave it
enabled, as does an absent argument string, and a disabled filter makes
client-span creation a no-op. -/
theorem C10_start_client_span_parsing :
    (∀ args : String,
      (traceFilterNew (some args)).start_client_span = some false →
        ∃ arg, arg ∈ splitChar ';' args ∧ ∃ v,
          split_once arg '=' = some ("start_client_span", v) ∧
          parseRustBool v = some false) ∧
    (∀ (opts : Options) (f : TraceFilter) (s : SysState) (txf : TxnF)
        (propHeaders : Context → List (String × String)),
      f.start_client_span = some false →
        on_request_headers opts f s txf propHeaders = Except.ok (f, [])) ∧
    ((traceFilterNew (some "start_client_span=no")).start_client_span =
       some true ∧
     (traceFilterNew (some "start_client_span=0")).start_client_span =
       some true ∧
     (traceFilterNew (some "start_client_span=False")).start_client_span =
       some true ∧
     (traceFilterNew none).start_client_span = none ∧
     (traceFilterNew (some "start_client_span=false")).start_client_span =
       some false) := by
  refine ⟨?_, ?_, by decide⟩
  · intro args h
    rw [traceFilterNew] at h
    rcases traceFilterFold_disabled (splitChar ';' args) defaultTraceFilter h
      with h1 | h2
    · exact absurd h1 (by decide)
    · exact h2
  · intro opts f s txf propHeaders hdis
    cases hg : get_context s <;>
      simp [on_request_headers, hg, hdis]

end HaproxyOtel
